import Mathlib

/-
  Verification of the endoscope-washer phase controller
  (src/endoloop_washer.py).

  Shallow embedding notes:
  - GPIO pin levels are modelled as a function from pin numbers to Bool
    inside AppState.  GPIO.output is set_pin, GPIO.input is read from an
    environment stream indexed by a logical clock.
  - The logical clock counts suspension points (time.sleep calls and
    blocking dialogs); it is the index into the environment streams for
    raw sensor readings, the user cancellation flag (stop_requested, set
    asynchronously by the GUI thread) and injected hardware faults.
  - Hardware faults (a GPIO read or a display update raising inside a
    polling or tick loop) are modelled by the fault stream: when it is
    true at the current clock the loop raises, carried as the error side
    of Except, so that the try/finally structure of the source is
    reproduced faithfully.
  - Loop iteration counts come from the source configuration:
    fill wait = 90 s at a 0.1 s check interval (900 polls),
    drain and disinfectant return = 60 s at 0.5 s ticks (120 ticks),
    treating timer = duration_minutes * 60 one-second ticks.
  - messagebox dialogs are modelled as one clock advance (they block);
    showwarning additionally increments a warnings counter.
  - shutdown_calls counts invocations of shutdown_all_valves, used to
    state that the safety shutdown runs exactly once.
  - Wall-clock time values, display strings, the history files and the
    barcode/report subsystems are not modelled; they do not affect the
    controller state machine.
-/

-- Pin constants from the source.
def INLET_VALVE_PIN : Nat := 23
def DRAIN_VALVE_PIN : Nat := 24
def WATER_PUMP_PIN : Nat := 25
def DISINFECT_PUMP_PIN : Nat := 19
def DISINFECT_INLET_PIN : Nat := 16
def DISINFECT_DRAIN_PIN : Nat := 20
def AIR_PUMP_PIN : Nat := 4
def BUZZER_PIN : Nat := 13
def STATUS_LED_PIN : Nat := 5
def ERROR_LED_PIN : Nat := 6

-- WATER_LEVEL_CONFIG entries, discretised.
def min_stable_reads : Nat := 5
-- timeout_seconds = 90 with check_interval = 0.1 s: 900 poll iterations.
def TIMEOUT_ITERS : Nat := 900
-- drain_time = 60 s at 0.5 s ticks.
def DRAIN_TICKS : Nat := 120
-- return_time = 60 s at 0.5 s ticks.
def RETURN_TICKS : Nat := 120

inductive Phase
  | detergentWash
  | rinsing
  | disinfecting
  | finalRinse
  | airFlush
deriving DecidableEq

-- PHASES list, in the canonical order of the source constant.
def PHASES : List Phase :=
  [Phase.detergentWash, Phase.rinsing, Phase.disinfecting,
   Phase.finalRinse, Phase.airFlush]

-- PHASE_PINS mapping from the source constant.
def PHASE_PINS : Phase → Nat
  | Phase.detergentWash => 18
  | Phase.rinsing => 17
  | Phase.disinfecting => 27
  | Phase.finalRinse => 22
  | Phase.airFlush => 12

structure WaterLevelSensor where
  last_stable_state : Bool
  stable_count : Nat
deriving DecidableEq

-- WaterLevelSensor.__init__ (pin number, name and last_read_time are
-- identity and wall-clock data, not part of the debounce state).
def WaterLevelSensor.init : WaterLevelSensor :=
  { last_stable_state := false, stable_count := 0 }

-- WaterLevelSensor.read_stable_level, with the raw GPIO.input value
-- passed in.  Returns the reported stable level and the updated sensor.
def read_stable_level (raw : Bool) (s : WaterLevelSensor) :
    Bool × WaterLevelSensor :=
  let count := if raw = s.last_stable_state then s.stable_count + 1 else 0
  let stable := if min_stable_reads ≤ count then raw else s.last_stable_state
  (stable, { last_stable_state := stable, stable_count := count })

-- Iterate read_stable_level over a list of raw readings, collecting the
-- reported values.
def read_seq : List Bool → WaterLevelSensor → List Bool × WaterLevelSensor
  | [], s => ([], s)
  | r :: rs, s =>
      let p := read_stable_level r s
      let q := read_seq rs p.2
      (p.1 :: q.1, q.2)

inductive SensorId
  | water
  | disinfect
deriving DecidableEq

-- The environment: streams indexed by the logical clock.
structure Env where
  water_raw : Nat → Bool
  disinfect_raw : Nat → Bool
  stop : Nat → Bool
  fault : Nat → Bool
  confirm_sensors : Bool

structure AppState where
  pins : Nat → Bool
  water_sensor : WaterLevelSensor
  disinfect_sensor : WaterLevelSensor
  clock : Nat
  warnings : Nat
  shutdown_calls : Nat

-- GPIO.output on one pin.
def set_pin (p : Nat) (v : Bool) (st : AppState) : AppState :=
  { st with pins := fun q => if q = p then v else st.pins q }

-- One suspension point (time.sleep or a blocking dialog).
def tick (st : AppState) : AppState := { st with clock := st.clock + 1 }

-- messagebox.showwarning: blocks once, recorded in the warnings counter.
def show_warning (st : AppState) : AppState :=
  { st with warnings := st.warnings + 1, clock := st.clock + 1 }

-- messagebox.showinfo: blocks once.
def show_info (st : AppState) : AppState := tick st

def get_sensor : SensorId → AppState → WaterLevelSensor
  | SensorId.water, st => st.water_sensor
  | SensorId.disinfect, st => st.disinfect_sensor

def set_sensor : SensorId → WaterLevelSensor → AppState → AppState
  | SensorId.water, s, st => { st with water_sensor := s }
  | SensorId.disinfect, s, st => { st with disinfect_sensor := s }

def raw_of (env : Env) : SensorId → Nat → Bool
  | SensorId.water, t => env.water_raw t
  | SensorId.disinfect, t => env.disinfect_raw t

-- WasherApp.shutdown_all_valves: the seven valve and pump pins, in the
-- order of the source list, plus the instrumentation counter.
def shutdown_all_valves (st : AppState) : AppState :=
  let st := set_pin INLET_VALVE_PIN false st
  let st := set_pin DRAIN_VALVE_PIN false st
  let st := set_pin WATER_PUMP_PIN false st
  let st := set_pin DISINFECT_INLET_PIN false st
  let st := set_pin DISINFECT_DRAIN_PIN false st
  let st := set_pin DISINFECT_PUMP_PIN false st
  let st := set_pin AIR_PUMP_PIN false st
  { st with shutdown_calls := st.shutdown_calls + 1 }

-- WaterLevelSensor.wait_for_level: poll read_stable_level until the
-- stable level equals the target or the fuel (timeout) runs out.  A
-- fault at a poll point raises.  The update_callback only writes the
-- display and is not modelled.
def wait_for_level (env : Env) (sid : SensorId) (target : Bool) :
    Nat → AppState → Except AppState (Bool × AppState)
  | 0, st => Except.ok (false, st)
  | fuel + 1, st =>
      if env.fault st.clock then Except.error st
      else
        let p := read_stable_level (raw_of env sid st.clock) (get_sensor sid st)
        let st' := set_sensor sid p.2 st
        if p.1 = target then Except.ok (true, st')
        else wait_for_level env sid target fuel (tick st')

-- WasherApp.run_timer_phase: duration_minutes * 60 one-second ticks,
-- checking stop_requested first on every tick; the display update is a
-- raise point.
def timer_loop (env : Env) : Nat → AppState → Except AppState (Bool × AppState)
  | 0, st => Except.ok (true, st)
  | n + 1, st =>
      if env.stop st.clock then Except.ok (false, st)
      else if env.fault st.clock then Except.error st
      else timer_loop env n (tick st)

def run_timer_phase (env : Env) (duration_minutes : Nat) (st : AppState) :
    Except AppState (Bool × AppState) :=
  timer_loop env (duration_minutes * 60) st

-- WasherApp.run_drain_phase: open the main drain, hold for 60 s with
-- 0.5 s ticks and a per-tick stop check, then close it.
def drain_loop (env : Env) : Nat → AppState → Except AppState (Bool × AppState)
  | 0, st => Except.ok (true, set_pin DRAIN_VALVE_PIN false st)
  | n + 1, st =>
      if env.stop st.clock then Except.ok (false, st)
      else if env.fault st.clock then Except.error st
      else drain_loop env n (tick st)

def run_drain_phase (env : Env) (st : AppState) :
    Except AppState (Bool × AppState) :=
  drain_loop env DRAIN_TICKS (set_pin DRAIN_VALVE_PIN true st)

-- WasherApp.return_disinfectant_phase: main drain closed, disinfectant
-- drain and pump on, hold for 60 s with 0.5 s ticks, then close both.
def return_loop (env : Env) : Nat → AppState → Except AppState (Bool × AppState)
  | 0, st =>
      Except.ok (true,
        set_pin DISINFECT_PUMP_PIN false
          (set_pin DISINFECT_DRAIN_PIN false st))
  | n + 1, st =>
      if env.stop st.clock then Except.ok (false, st)
      else if env.fault st.clock then Except.error st
      else return_loop env n (tick st)

def return_disinfectant_phase (env : Env) (st : AppState) :
    Except AppState (Bool × AppState) :=
  let st := set_pin DRAIN_VALVE_PIN false st
  let st := set_pin DISINFECT_DRAIN_PIN true st
  let st := set_pin DISINFECT_PUMP_PIN true st
  return_loop env RETURN_TICKS st

-- WasherApp.fill_water_phase: open inlet, close drain, start pump, wait
-- for the level, then always close inlet and stop the pump; a timeout
-- produces a warning but still returns True.
def fill_water_phase (env : Env) (st : AppState) :
    Except AppState (Bool × AppState) :=
  let st := set_pin INLET_VALVE_PIN true st
  let st := set_pin DRAIN_VALVE_PIN false st
  let st := set_pin WATER_PUMP_PIN true st
  match wait_for_level env SensorId.water true TIMEOUT_ITERS st with
  | Except.error s => Except.error s
  | Except.ok (water_filled, st) =>
      let st := set_pin INLET_VALVE_PIN false st
      let st := set_pin WATER_PUMP_PIN false st
      if env.stop st.clock then Except.ok (false, st)
      else if water_filled then Except.ok (true, st)
      else Except.ok (true, show_warning st)

-- The try/finally wrapper shared by the phase run methods.
def with_cleanup (fin : AppState → AppState) :
    Except AppState (Bool × AppState) → Except AppState (Bool × AppState)
  | Except.ok (b, st) => Except.ok (b, fin st)
  | Except.error st => Except.error (fin st)

-- Sequencing of phase sub-steps: the source pattern
-- `if not step(): return False` followed by the next step.
def andThen : Except AppState (Bool × AppState) →
    (AppState → Except AppState (Bool × AppState)) →
    Except AppState (Bool × AppState)
  | Except.error s, _ => Except.error s
  | Except.ok (false, st), _ => Except.ok (false, st)
  | Except.ok (true, st), k => k st

-- The finally block of the four wet phases: shutdown_all_valves, then
-- the phase indicator pin off.
def phase_cleanup (pin : Nat) (st : AppState) : AppState :=
  set_pin pin false (shutdown_all_valves st)

-- The finally block of run_air_flush_phase: air pump off, then the
-- phase indicator pin off.  It does not call shutdown_all_valves.
def air_flush_cleanup (st : AppState) : AppState :=
  set_pin (PHASE_PINS Phase.airFlush) false (set_pin AIR_PUMP_PIN false st)

-- WasherApp.run_detergent_wash_phase, body of the try block.
def detergent_wash_body (env : Env) (duration_minutes : Nat) (st : AppState) :
    Except AppState (Bool × AppState) :=
  let st := set_pin INLET_VALVE_PIN true st
  let st := set_pin DRAIN_VALVE_PIN false st
  let st := set_pin WATER_PUMP_PIN true st
  match wait_for_level env SensorId.water true TIMEOUT_ITERS st with
  | Except.error s => Except.error s
  | Except.ok (water_filled, st) =>
      if env.stop st.clock then Except.ok (false, st)
      else
        let st := if water_filled then st else show_warning st
        let st := set_pin INLET_VALVE_PIN false st
        let st := set_pin WATER_PUMP_PIN false st
        let st := show_info st
        if env.stop st.clock then Except.ok (false, st)
        else
          andThen (run_timer_phase env duration_minutes st)
            (fun st => run_drain_phase env st)

def run_detergent_wash_phase (env : Env) (duration_minutes : Nat)
    (st : AppState) : Except AppState (Bool × AppState) :=
  let st := set_pin (PHASE_PINS Phase.detergentWash) true st
  with_cleanup (phase_cleanup (PHASE_PINS Phase.detergentWash))
    (detergent_wash_body env duration_minutes st)

-- WasherApp.run_rinsing_phase, body of the try block.
def rinsing_body (env : Env) (duration_minutes : Nat) (st : AppState) :
    Except AppState (Bool × AppState) :=
  andThen (fill_water_phase env st) (fun st =>
    if env.stop st.clock then Except.ok (false, st)
    else
      andThen (run_timer_phase env duration_minutes st)
        (fun st => run_drain_phase env st))

def run_rinsing_phase (env : Env) (duration_minutes : Nat) (st : AppState) :
    Except AppState (Bool × AppState) :=
  let st := set_pin (PHASE_PINS Phase.rinsing) true st
  with_cleanup (phase_cleanup (PHASE_PINS Phase.rinsing))
    (rinsing_body env duration_minutes st)

-- WasherApp.run_disinfecting_phase, body of the try block.
def disinfecting_body (env : Env) (duration_minutes : Nat) (st : AppState) :
    Except AppState (Bool × AppState) :=
  let st := set_pin DISINFECT_INLET_PIN true st
  let st := set_pin DRAIN_VALVE_PIN false st
  let st := set_pin DISINFECT_DRAIN_PIN false st
  let st := set_pin DISINFECT_PUMP_PIN true st
  match wait_for_level env SensorId.disinfect true TIMEOUT_ITERS st with
  | Except.error s => Except.error s
  | Except.ok (disinfect_filled, st) =>
      if env.stop st.clock then Except.ok (false, st)
      else
        let st := if disinfect_filled then st else show_warning st
        let st := set_pin DISINFECT_INLET_PIN false st
        let st := set_pin DISINFECT_PUMP_PIN false st
        if env.stop st.clock then Except.ok (false, st)
        else
          andThen (run_timer_phase env duration_minutes st)
            (fun st => return_disinfectant_phase env st)

def run_disinfecting_phase (env : Env) (duration_minutes : Nat)
    (st : AppState) : Except AppState (Bool × AppState) :=
  let st := set_pin (PHASE_PINS Phase.disinfecting) true st
  with_cleanup (phase_cleanup (PHASE_PINS Phase.disinfecting))
    (disinfecting_body env duration_minutes st)

-- WasherApp.run_final_rinse_phase, body of the try block: the
-- circulation pump stays on through the treating timer.
def final_rinse_body (env : Env) (duration_minutes : Nat) (st : AppState) :
    Except AppState (Bool × AppState) :=
  andThen (fill_water_phase env st) (fun st =>
    if env.stop st.clock then Except.ok (false, st)
    else
      andThen (run_timer_phase env duration_minutes
          (set_pin WATER_PUMP_PIN true st))
        (fun st => run_drain_phase env (set_pin WATER_PUMP_PIN false st)))

def run_final_rinse_phase (env : Env) (duration_minutes : Nat)
    (st : AppState) : Except AppState (Bool × AppState) :=
  let st := set_pin (PHASE_PINS Phase.finalRinse) true st
  with_cleanup (phase_cleanup (PHASE_PINS Phase.finalRinse))
    (final_rinse_body env duration_minutes st)

-- WasherApp.run_air_flush_phase, body of the try block: it calls
-- shutdown_all_valves first, then runs the air pump through the timer.
def air_flush_body (env : Env) (duration_minutes : Nat) (st : AppState) :
    Except AppState (Bool × AppState) :=
  let st := shutdown_all_valves st
  let st := set_pin AIR_PUMP_PIN true st
  andThen (run_timer_phase env duration_minutes st)
    (fun st => Except.ok (true, set_pin AIR_PUMP_PIN false st))

def run_air_flush_phase (env : Env) (duration_minutes : Nat)
    (st : AppState) : Except AppState (Bool × AppState) :=
  let st := set_pin (PHASE_PINS Phase.airFlush) true st
  with_cleanup air_flush_cleanup (air_flush_body env duration_minutes st)

inductive RunStatus
  | success
  | error
  | stoppedByUser
  | systemError
deriving DecidableEq

structure PhaseLog where
  name : Phase
  duration : Nat
  ok : Bool
deriving DecidableEq

structure LogEntry where
  phases : List PhaseLog
  status : RunStatus
deriving DecidableEq

-- The if/elif dispatch on the phase name inside run_all_phases.
def run_phase (env : Env) : Phase → Nat → AppState →
    Except AppState (Bool × AppState)
  | Phase.detergentWash, d, st => run_detergent_wash_phase env d st
  | Phase.rinsing, d, st => run_rinsing_phase env d st
  | Phase.disinfecting, d, st => run_disinfecting_phase env d st
  | Phase.finalRinse, d, st => run_final_rinse_phase env d st
  | Phase.airFlush, d, st => run_air_flush_phase env d st

-- The phase loop of run_all_phases.  The error side carries the phase
-- log entries appended before the raise together with the state at the
-- raise.  On a stop observed at the top of the loop the status becomes
-- stoppedByUser; on a phase returning failure it becomes error.
def run_phases_from (env : Env) (sel : Phase → Bool) (dur : Phase → Nat) :
    List Phase → AppState →
    Except (List PhaseLog × AppState) (RunStatus × List PhaseLog × AppState)
  | [], st => Except.ok (RunStatus.success, [], st)
  | p :: rest, st =>
      if env.stop st.clock then Except.ok (RunStatus.stoppedByUser, [], st)
      else if sel p then
        match run_phase env p (dur p) st with
        | Except.error st' => Except.error ([], st')
        | Except.ok (r, st') =>
            let entry : PhaseLog := ⟨p, dur p, r⟩
            if r then
              match run_phases_from env sel dur rest st' with
              | Except.ok (s, logs, st'') =>
                  Except.ok (s, entry :: logs, st'')
              | Except.error (logs, st'') =>
                  Except.error (entry :: logs, st'')
            else Except.ok (RunStatus.error, [entry], st')
      else run_phases_from env sel dur rest st

-- WasherApp.sound_error_buzzer: two one-second pulses.
def sound_error_buzzer (st : AppState) : AppState :=
  let st := set_pin BUZZER_PIN true st
  let st := tick st
  let st := set_pin BUZZER_PIN false st
  let st := tick st
  let st := set_pin BUZZER_PIN true st
  let st := tick st
  set_pin BUZZER_PIN false st

-- WasherApp.sound_completion_buzzer: three short pulses.
def sound_completion_buzzer (st : AppState) : AppState :=
  let step := fun (s : AppState) =>
    tick (set_pin BUZZER_PIN false (tick (set_pin BUZZER_PIN true s)))
  step (step (step st))

-- The finally block of run_all_phases: safety shutdown, status LED off,
-- then error signalling or the completion pattern.  success mirrors the
-- local success variable of the source; the stop_requested flag is
-- sampled once (it is set at most once during a run and only reset at
-- the very end of this block, and the two guarded branches cannot both
-- be live for one value of success).
def run_all_finally (env : Env) (success : Bool) (st : AppState) : AppState :=
  let st := shutdown_all_valves st
  let stopped := env.stop st.clock
  let st := set_pin STATUS_LED_PIN false st
  let st :=
    if success = false ∧ stopped = false then
      sound_error_buzzer (set_pin ERROR_LED_PIN true st)
    else st
  if success = true ∧ stopped = false then sound_completion_buzzer st else st

-- WasherApp.run_all_phases: status LED on, the phase loop inside
-- try/except/finally, producing the run log entry and the final state.
-- The except branch marks the run SYSTEM_ERROR; timestamps, history
-- persistence and the report dialog are not modelled.
def run_all_phases (env : Env) (sel : Phase → Bool) (dur : Phase → Nat)
    (st : AppState) : LogEntry × AppState :=
  let st := set_pin STATUS_LED_PIN true st
  match run_phases_from env sel dur PHASES st with
  | Except.ok (s, logs, st') =>
      let success := match s with
        | RunStatus.error => false
        | _ => true
      (⟨logs, s⟩, run_all_finally env success st')
  | Except.error (logs, st') =>
      (⟨logs, RunStatus.systemError⟩, run_all_finally env false st')

inductive StartOutcome
  | rejected (msg : String)
  | declined
  | started
deriving DecidableEq

-- WasherApp.test_sensors: one read of each sensor, then the askyesno
-- confirmation dialog answered by the environment.
def test_sensors (env : Env) (st : AppState) : Bool × AppState :=
  let pw := read_stable_level (env.water_raw st.clock) st.water_sensor
  let pd := read_stable_level (env.disinfect_raw st.clock) st.disinfect_sensor
  let st := { st with water_sensor := pw.2, disinfect_sensor := pd.2 }
  (env.confirm_sensors, st)

-- WasherApp.start_process: input validation, then the sensor self-test,
-- then the worker thread is started (the run itself is run_all_phases,
-- modelled separately since it executes on the worker).
def start_process (env : Env) (operator_id scope_id : String)
    (sel : Phase → Bool) (st : AppState) : StartOutcome × AppState :=
  if operator_id = "" then
    (StartOutcome.rejected "Operator ID harus diisi!", st)
  else if scope_id = "" then
    (StartOutcome.rejected "Scope ID harus diisi!", st)
  else if PHASES.any sel = false then
    (StartOutcome.rejected "Pilih minimal satu fase untuk dijalankan!", st)
  else
    match test_sensors env st with
    | (false, st') => (StartOutcome.declined, st')
    | (true, st') => (StartOutcome.started, st')

-- Observers used to state the claims.

def run_state : Except AppState (Bool × AppState) → AppState
  | Except.ok (_, st) => st
  | Except.error st => st

def run_ok : Except AppState (Bool × AppState) → Option Bool
  | Except.ok (b, _) => some b
  | Except.error _ => none

def wait_obs : Except AppState (Bool × AppState) → Option (Bool × Nat)
  | Except.ok (b, st) => some (b, st.clock)
  | Except.error _ => none

def is_rejected : StartOutcome → Bool
  | StartOutcome.rejected _ => true
  | _ => false

-- The safety invariant of claim C1: the seven valve and pump pins low.
def all_valves_off (st : AppState) : Prop :=
  st.pins INLET_VALVE_PIN = false ∧
  st.pins DRAIN_VALVE_PIN = false ∧
  st.pins WATER_PUMP_PIN = false ∧
  st.pins DISINFECT_INLET_PIN = false ∧
  st.pins DISINFECT_DRAIN_PIN = false ∧
  st.pins DISINFECT_PUMP_PIN = false ∧
  st.pins AIR_PUMP_PIN = false

-- Concrete inputs used by witnesses and counterexamples.

def pins0 : Nat → Bool := fun _ => false

-- Fresh application state: all pins low, both sensors as constructed.
def st0 : AppState :=
  { pins := pins0, water_sensor := WaterLevelSensor.init,
    disinfect_sensor := WaterLevelSensor.init, clock := 0, warnings := 0,
    shutdown_calls := 0 }

-- Quiet environment: raw sensors always low, no stop request, no fault.
def env_quiet : Env :=
  { water_raw := fun _ => false, disinfect_raw := fun _ => false,
    stop := fun _ => false, fault := fun _ => false,
    confirm_sensors := true }

-- Stop requested from the very beginning.
def env_stop_all : Env := { env_quiet with stop := fun _ => true }

-- Stop requested from logical time 2 onward (two ticks into a countdown),
-- with the disinfectant raw sensor high.
def env_stop_from2 : Env :=
  { env_quiet with
    stop := fun t => decide (2 ≤ t)
    disinfect_raw := fun _ => true }

-- Water raw sensor always high.
def env_water_high : Env := { env_quiet with water_raw := fun _ => true }

-- State whose water sensor already reports a stable high level.
def st_water_high : AppState :=
  { st0 with water_sensor := { last_stable_state := true, stable_count := 0 } }

-- State whose disinfectant sensor already reports a stable high level.
def st_disinfect_high : AppState :=
  { st0 with
    disinfect_sensor := { last_stable_state := true, stable_count := 0 } }

-- Selection containing only the Disinfecting phase.
def sel_disinfect_only : Phase → Bool := fun p => decide (p = Phase.disinfecting)

-- Duration configuration: five minutes everywhere (the spinbox minimum).
def dur5 : Phase → Nat := fun _ => 5

-- Log entries carried by the phase loop result, on both the normal and
-- the raising side.
def loop_logs : Except (List PhaseLog × AppState)
    (RunStatus × List PhaseLog × AppState) → List PhaseLog
  | Except.ok (_, logs, _) => logs
  | Except.error (logs, _) => logs

-- Basic projection lemmas.

@[simp] lemma set_pin_pins (p : Nat) (v : Bool) (st : AppState) (q : Nat) :
    (set_pin p v st).pins q = if q = p then v else st.pins q := rfl

@[simp] lemma set_pin_clock (p : Nat) (v : Bool) (st : AppState) :
    (set_pin p v st).clock = st.clock := rfl

@[simp] lemma set_pin_warnings (p : Nat) (v : Bool) (st : AppState) :
    (set_pin p v st).warnings = st.warnings := rfl

@[simp] lemma set_pin_sdc (p : Nat) (v : Bool) (st : AppState) :
    (set_pin p v st).shutdown_calls = st.shutdown_calls := rfl

@[simp] lemma set_pin_water (p : Nat) (v : Bool) (st : AppState) :
    (set_pin p v st).water_sensor = st.water_sensor := rfl

@[simp] lemma set_pin_disinfect (p : Nat) (v : Bool) (st : AppState) :
    (set_pin p v st).disinfect_sensor = st.disinfect_sensor := rfl

@[simp] lemma tick_pins (st : AppState) : (tick st).pins = st.pins := rfl

@[simp] lemma tick_clock (st : AppState) : (tick st).clock = st.clock + 1 := rfl

@[simp] lemma tick_warnings (st : AppState) :
    (tick st).warnings = st.warnings := rfl

@[simp] lemma tick_sdc (st : AppState) :
    (tick st).shutdown_calls = st.shutdown_calls := rfl

@[simp] lemma tick_water (st : AppState) :
    (tick st).water_sensor = st.water_sensor := rfl

@[simp] lemma tick_disinfect (st : AppState) :
    (tick st).disinfect_sensor = st.disinfect_sensor := rfl

@[simp] lemma show_warning_pins (st : AppState) :
    (show_warning st).pins = st.pins := rfl

@[simp] lemma show_warning_warnings (st : AppState) :
    (show_warning st).warnings = st.warnings + 1 := rfl

@[simp] lemma show_warning_sdc (st : AppState) :
    (show_warning st).shutdown_calls = st.shutdown_calls := rfl

@[simp] lemma show_warning_water (st : AppState) :
    (show_warning st).water_sensor = st.water_sensor := rfl

@[simp] lemma show_warning_disinfect (st : AppState) :
    (show_warning st).disinfect_sensor = st.disinfect_sensor := rfl

@[simp] lemma show_info_eq (st : AppState) : show_info st = tick st := rfl

@[simp] lemma shutdown_sdc (st : AppState) :
    (shutdown_all_valves st).shutdown_calls = st.shutdown_calls + 1 := rfl

@[simp] lemma shutdown_warnings (st : AppState) :
    (shutdown_all_valves st).warnings = st.warnings := rfl

@[simp] lemma shutdown_clock (st : AppState) :
    (shutdown_all_valves st).clock = st.clock := rfl

lemma shutdown_valves_off (st : AppState) :
    all_valves_off (shutdown_all_valves st) :=
  ⟨rfl, rfl, rfl, rfl, rfl, rfl, rfl⟩

lemma shutdown_pins_other (st : AppState) (q : Nat)
    (h1 : q ≠ INLET_VALVE_PIN) (h2 : q ≠ DRAIN_VALVE_PIN)
    (h3 : q ≠ WATER_PUMP_PIN) (h4 : q ≠ DISINFECT_INLET_PIN)
    (h5 : q ≠ DISINFECT_DRAIN_PIN) (h6 : q ≠ DISINFECT_PUMP_PIN)
    (h7 : q ≠ AIR_PUMP_PIN) :
    (shutdown_all_valves st).pins q = st.pins q := by
  simp [shutdown_all_valves, h1, h2, h3, h4, h5, h6, h7]

@[simp] lemma get_set_sensor (sid : SensorId) (s : WaterLevelSensor)
    (st : AppState) : get_sensor sid (set_sensor sid s st) = s := by
  cases sid <;> rfl

@[simp] lemma set_sensor_pins (sid : SensorId) (s : WaterLevelSensor)
    (st : AppState) : (set_sensor sid s st).pins = st.pins := by
  cases sid <;> rfl

@[simp] lemma set_sensor_clock (sid : SensorId) (s : WaterLevelSensor)
    (st : AppState) : (set_sensor sid s st).clock = st.clock := by
  cases sid <;> rfl

@[simp] lemma set_sensor_warnings (sid : SensorId) (s : WaterLevelSensor)
    (st : AppState) : (set_sensor sid s st).warnings = st.warnings := by
  cases sid <;> rfl

@[simp] lemma set_sensor_sdc (sid : SensorId) (s : WaterLevelSensor)
    (st : AppState) :
    (set_sensor sid s st).shutdown_calls = st.shutdown_calls := by
  cases sid <;> rfl

@[simp] lemma run_state_with_cleanup (fin : AppState → AppState)
    (r : Except AppState (Bool × AppState)) :
    run_state (with_cleanup fin r) = fin (run_state r) := by
  cases r with
  | ok x => cases x; rfl
  | error st => rfl

@[simp] lemma run_ok_with_cleanup (fin : AppState → AppState)
    (r : Except AppState (Bool × AppState)) :
    run_ok (with_cleanup fin r) = run_ok r := by
  cases r with
  | ok x => cases x; rfl
  | error st => rfl

@[simp] lemma phase_cleanup_sdc (pin : Nat) (st : AppState) :
    (phase_cleanup pin st).shutdown_calls = st.shutdown_calls + 1 := rfl

@[simp] lemma air_flush_cleanup_sdc (st : AppState) :
    (air_flush_cleanup st).shutdown_calls = st.shutdown_calls := rfl

@[simp] lemma phase_cleanup_own_pin (pin : Nat) (st : AppState) :
    (phase_cleanup pin st).pins pin = false := by
  simp [phase_cleanup]

@[simp] lemma andThen_error (s : AppState)
    (k : AppState → Except AppState (Bool × AppState)) :
    andThen (Except.error s) k = Except.error s := rfl

@[simp] lemma andThen_false (st : AppState)
    (k : AppState → Except AppState (Bool × AppState)) :
    andThen (Except.ok (false, st)) k = Except.ok (false, st) := rfl

@[simp] lemma andThen_true (st : AppState)
    (k : AppState → Except AppState (Bool × AppState)) :
    andThen (Except.ok (true, st)) k = k st := rfl

-- The debounce step never changes the reported stable state: the commit
-- branch only fires when the raw reading already equals it.
lemma read_stable_level_const (raw : Bool) (s : WaterLevelSensor) :
    (read_stable_level raw s).1 = s.last_stable_state ∧
    (read_stable_level raw s).2.last_stable_state = s.last_stable_state := by
  unfold read_stable_level
  by_cases h : raw = s.last_stable_state
  · subst h
    constructor <;> simp
  · have : ¬ min_stable_reads ≤ 0 := by decide
    constructor <;> simp [h, this]

-- Iterating the debounce from a sensor whose stable state is low keeps
-- every reported value low, for any raw input whatsoever.
lemma read_seq_all_false : ∀ (raws : List Bool) (s : WaterLevelSensor),
    s.last_stable_state = false →
    (read_seq raws s).1 = List.replicate raws.length false ∧
    (read_seq raws s).2.last_stable_state = false
  | [], _, h => ⟨rfl, h⟩
  | r :: rs, s, h => by
    have hc := read_stable_level_const r s
    have hlast : (read_stable_level r s).2.last_stable_state = false :=
      hc.2.trans h
    have ih := read_seq_all_false rs (read_stable_level r s).2 hlast
    simp only [read_seq]
    refine ⟨?_, ih.2⟩
    simp only [List.length_cons, List.replicate_succ, List.cons.injEq]
    exact ⟨hc.1.trans h, ih.1⟩

/-- C10: a newly constructed WaterLevelSensor has last_stable_state
initialized to False, and each of the first min_stable_reads (5) calls
to read_stable_level returns False regardless of the raw pin values read
during those calls. -/
theorem sensor_first_reads_false :
    WaterLevelSensor.init.last_stable_state = false ∧
    ∀ raws : List Bool, raws.length = min_stable_reads →
      (read_seq raws WaterLevelSensor.init).1 =
        [false, false, false, false, false] := by
  refine ⟨rfl, fun raws h => ?_⟩
  rw [(read_seq_all_false raws WaterLevelSensor.init rfl).1, h]
  rfl

/-- Witness for C10 at the concrete raw sequence of five high readings. -/
theorem sensor_first_reads_false_witness :
    (read_seq [true, true, true, true, true] WaterLevelSensor.init).1 =
      [false, false, false, false, false] :=
  sensor_first_reads_false.2 [true, true, true, true, true] rfl

/-- C2 (evidence of a code bug): a fresh sensor fed a constantly high raw
signal for 10 consecutive polls, far beyond min_stable_reads = 5, still
reports False on every call and its stable state never becomes True: the
stable_count is reset whenever the raw value differs from
last_stable_state, so the commit of a new stable value can never fire.
The debounce therefore never converges to a constant high input,
contrary to the claimed convergence. -/
theorem read_stable_level_constant_true_stays_false :
    (read_seq (List.replicate 10 true) WaterLevelSensor.init).1 =
      List.replicate 10 false ∧
    (read_seq (List.replicate 10 true)
        WaterLevelSensor.init).2.last_stable_state = false := by
  decide

/-- C8: a start request with an empty operator ID, an empty scope ID, or
no selected phase is rejected by validation before the run starts, and
the application state (pins and sensors) is completely untouched, so the
caller may simply retry. -/
theorem start_process_validation_rejects (env : Env)
    (operator_id scope_id : String) (sel : Phase → Bool) (st : AppState)
    (h : operator_id = "" ∨ scope_id = "" ∨ PHASES.any sel = false) :
    is_rejected (start_process env operator_id scope_id sel st).1 = true ∧
    (start_process env operator_id scope_id sel st).2 = st := by
  unfold start_process
  by_cases h1 : operator_id = ""
  · simp [h1, is_rejected]
  · by_cases h2 : scope_id = ""
    · simp [h1, h2, is_rejected]
    · by_cases h3 : PHASES.any sel = false
      · simp [h1, h2, h3, is_rejected]
      · rcases h with h | h | h
        · exact absurd h h1
        · exact absurd h h2
        · exact absurd h h3

/-- Witness for C8 at a concrete request with an empty operator ID. -/
theorem start_process_validation_rejects_witness :
    is_rejected
        (start_process env_quiet "" "SC-1" sel_disinfect_only st0).1 = true ∧
    (start_process env_quiet "" "SC-1" sel_disinfect_only st0).2 = st0 :=
  start_process_validation_rejects env_quiet "" "SC-1" sel_disinfect_only st0
    (Or.inl rfl)

/-- C9: however fill_water_phase returns normally (target level reached,
sensor timeout, or cancellation flag set), the inlet valve pin and the
water pump pin have been set low before it returns. -/
theorem fill_water_phase_valves_closed (env : Env) (st : AppState)
    (b : Bool) (st' : AppState)
    (h : fill_water_phase env st = Except.ok (b, st')) :
    st'.pins INLET_VALVE_PIN = false ∧ st'.pins WATER_PUMP_PIN = false := by
  simp only [fill_water_phase] at h
  rcases hw : wait_for_level env SensorId.water true TIMEOUT_ITERS
      (set_pin WATER_PUMP_PIN true
        (set_pin DRAIN_VALVE_PIN false
          (set_pin INLET_VALVE_PIN true st))) with st1 | x
  · rw [hw] at h
    exact absurd h (by simp)
  · obtain ⟨filled, st1⟩ := x
    rw [hw] at h
    simp only at h
    split at h
    · simp only [Except.ok.injEq, Prod.mk.injEq] at h
      rw [← h.2]
      simp [INLET_VALVE_PIN, WATER_PUMP_PIN]
    · split at h <;>
      · simp only [Except.ok.injEq, Prod.mk.injEq] at h
        rw [← h.2]
        simp [INLET_VALVE_PIN, WATER_PUMP_PIN]

/-- Witness for C9 at a concrete run whose water sensor already reports
the target level, so the fill returns successfully at once. -/
theorem fill_water_phase_valves_closed_witness :
    (run_state (fill_water_phase env_water_high st_water_high)).pins
        INLET_VALVE_PIN = false ∧
    (run_state (fill_water_phase env_water_high st_water_high)).pins
        WATER_PUMP_PIN = false :=
  fill_water_phase_valves_closed env_water_high st_water_high true
    (run_state (fill_water_phase env_water_high st_water_high)) rfl

lemma raw_of_stop_update (env : Env) (s : Nat → Bool) (sid : SensorId)
    (t : Nat) : raw_of { env with stop := s } sid t = raw_of env sid t := by
  cases sid <;> rfl

set_option maxRecDepth 20000 in
/-- C5 counterexample: with the cancellation flag set on every iteration
from the start, wait_for_level on a sensor that never reaches the target
still performs all TIMEOUT_ITERS = 900 polls (the final clock equals the
full poll budget) and then returns the ordinary timeout result, instead
of returning early as the claim requires. -/
theorem wait_for_level_ignores_stop_cex :
    env_stop_all.stop 0 = true ∧
    wait_obs (wait_for_level env_stop_all SensorId.water true TIMEOUT_ITERS
        st0) = some (false, 900) := by
  refine ⟨rfl, ?_⟩
  decide

/-- C5 amended: wait_for_level never observes the cancellation flag at
all; its outcome and final state are completely independent of the stop
stream, and it returns only on a stable target reading or on timeout.
Callers check the flag themselves right after the wait returns. -/
theorem wait_for_level_stop_independent (env : Env) (s₁ s₂ : Nat → Bool)
    (sid : SensorId) (target : Bool) (fuel : Nat) (st : AppState) :
    wait_for_level { env with stop := s₁ } sid target fuel st =
    wait_for_level { env with stop := s₂ } sid target fuel st := by
  induction fuel generalizing st with
  | zero => rfl
  | succ n ih =>
    simp only [wait_for_level, raw_of_stop_update]
    split
    · rfl
    · split
      · rfl
      · exact ih _

@[simp] lemma get_water (st : AppState) :
    get_sensor SensorId.water st = st.water_sensor := rfl

@[simp] lemma get_disinfect (st : AppState) :
    get_sensor SensorId.disinfect st = st.disinfect_sensor := rfl

@[simp] lemma get_sensor_tick (sid : SensorId) (st : AppState) :
    get_sensor sid (tick st) = get_sensor sid st := by
  cases sid <;> rfl

-- A fault-free wait on a sensor whose stable state differs from the
-- target always times out: by read_stable_level_const the stable state
-- can never change, so no poll matches the target.
lemma wait_for_level_timeout (env : Env) (sid : SensorId) (target : Bool)
    (hf : ∀ t, env.fault t = false) :
    ∀ (fuel : Nat) (st : AppState),
    (get_sensor sid st).last_stable_state ≠ target →
    ∃ st', wait_for_level env sid target fuel st = Except.ok (false, st') ∧
      st'.warnings = st.warnings ∧
      st'.shutdown_calls = st.shutdown_calls ∧
      (get_sensor sid st').last_stable_state =
        (get_sensor sid st).last_stable_state := by
  intro fuel
  induction fuel with
  | zero => exact fun st _ => ⟨st, rfl, rfl, rfl, rfl⟩
  | succ n ih =>
    intro st h
    have hc := read_stable_level_const (raw_of env sid st.clock)
      (get_sensor sid st)
    have hnext : (get_sensor sid
        (tick (set_sensor sid
          (read_stable_level (raw_of env sid st.clock)
            (get_sensor sid st)).2 st))).last_stable_state =
        (get_sensor sid st).last_stable_state := by
      rw [get_sensor_tick, get_set_sensor]
      exact hc.2
    obtain ⟨st', h1, h2, h3, h4⟩ := ih
      (tick (set_sensor sid
        (read_stable_level (raw_of env sid st.clock)
          (get_sensor sid st)).2 st))
      (by rw [hnext]; exact h)
    refine ⟨st', ?_, ?_, ?_, ?_⟩
    · simp only [wait_for_level, hf st.clock]
      rw [if_neg (by simp), if_neg (by rw [hc.1]; exact h)]
      exact h1
    · rw [h2]; simp
    · rw [h3]; simp
    · rw [h4, hnext]

-- A stop-free, fault-free countdown timer completes, touching neither
-- pins nor warnings nor the shutdown counter.
lemma timer_loop_ok (env : Env) (hs : ∀ t, env.stop t = false)
    (hf : ∀ t, env.fault t = false) :
    ∀ (n : Nat) (st : AppState),
    ∃ st', timer_loop env n st = Except.ok (true, st') ∧
      st'.pins = st.pins ∧ st'.warnings = st.warnings ∧
      st'.shutdown_calls = st.shutdown_calls := by
  intro n
  induction n with
  | zero => exact fun st => ⟨st, rfl, rfl, rfl, rfl⟩
  | succ k ih =>
    intro st
    obtain ⟨st', h1, h2, h3, h4⟩ := ih (tick st)
    refine ⟨st', ?_, ?_, ?_, ?_⟩
    · simp only [timer_loop, hs st.clock, hf st.clock]
      rw [if_neg (by simp), if_neg (by simp)]
      exact h1
    · rw [h2]; rfl
    · rw [h3]; rfl
    · rw [h4]; rfl

-- A stop-free, fault-free drain hold completes, touching neither
-- warnings nor the shutdown counter.
lemma drain_loop_ok (env : Env) (hs : ∀ t, env.stop t = false)
    (hf : ∀ t, env.fault t = false) :
    ∀ (n : Nat) (st : AppState),
    ∃ st', drain_loop env n st = Except.ok (true, st') ∧
      st'.warnings = st.warnings ∧
      st'.shutdown_calls = st.shutdown_calls := by
  intro n
  induction n with
  | zero => exact fun st => ⟨set_pin DRAIN_VALVE_PIN false st, rfl, rfl, rfl⟩
  | succ k ih =>
    intro st
    obtain ⟨st', h1, h2, h3⟩ := ih (tick st)
    refine ⟨st', ?_, ?_, ?_⟩
    · simp only [drain_loop, hs st.clock, hf st.clock]
      rw [if_neg (by simp), if_neg (by simp)]
      exact h1
    · rw [h2]; rfl
    · rw [h3]; rfl

-- A stop-free, fault-free disinfectant return hold completes, touching
-- neither warnings nor the shutdown counter.
lemma return_loop_ok (env : Env) (hs : ∀ t, env.stop t = false)
    (hf : ∀ t, env.fault t = false) :
    ∀ (n : Nat) (st : AppState),
    ∃ st', return_loop env n st = Except.ok (true, st') ∧
      st'.warnings = st.warnings ∧
      st'.shutdown_calls = st.shutdown_calls := by
  intro n
  induction n with
  | zero =>
    exact fun st =>
      ⟨set_pin DISINFECT_PUMP_PIN false
        (set_pin DISINFECT_DRAIN_PIN false st), rfl, rfl, rfl⟩
  | succ k ih =>
    intro st
    obtain ⟨st', h1, h2, h3⟩ := ih (tick st)
    refine ⟨st', ?_, ?_, ?_⟩
    · simp only [return_loop, hs st.clock, hf st.clock]
      rw [if_neg (by simp), if_neg (by simp)]
      exact h1
    · rw [h2]; rfl
    · rw [h3]; rfl

-- A stop-free, fault-free fill whose water sensor is stably low times
-- out, surfaces exactly one warning, and still returns True.
lemma fill_water_phase_timeout (env : Env) (st : AppState)
    (hs : ∀ t, env.stop t = false) (hf : ∀ t, env.fault t = false)
    (hw : st.water_sensor.last_stable_state = false) :
    ∃ st', fill_water_phase env st = Except.ok (true, st') ∧
      st'.warnings = st.warnings + 1 ∧
      st'.shutdown_calls = st.shutdown_calls := by
  obtain ⟨st1, h1, h2, h3, h4⟩ := wait_for_level_timeout env SensorId.water
    true hf TIMEOUT_ITERS
    (set_pin WATER_PUMP_PIN true
      (set_pin DRAIN_VALVE_PIN false (set_pin INLET_VALVE_PIN true st)))
    (by simp [hw])
  refine ⟨show_warning (set_pin WATER_PUMP_PIN false
      (set_pin INLET_VALVE_PIN false st1)), ?_, ?_, ?_⟩
  · simp only [fill_water_phase]
    rw [h1]
    simp only [hs]
    rw [if_neg (by simp)]
    rfl
  · simp [h2]
  · simp [h3]

/-- C6: in every phase containing a fill step, if the level wait times
out (here: the sensor debounce state is stably low, so the wait can
never observe the target) and no cancellation or fault occurs, the phase
does not fail: exactly one warning is surfaced, the fill valve and fill
pump pins end up low, the phase proceeds through its remaining steps and
still returns success. -/
theorem fill_timeout_phases_still_succeed :
    (∀ (env : Env) (d : Nat) (st : AppState),
      (∀ t, env.stop t = false) → (∀ t, env.fault t = false) →
      st.water_sensor.last_stable_state = false →
      run_ok (run_detergent_wash_phase env d st) = some true ∧
      (run_state (run_detergent_wash_phase env d st)).warnings =
        st.warnings + 1 ∧
      (run_state (run_detergent_wash_phase env d st)).pins
        INLET_VALVE_PIN = false ∧
      (run_state (run_detergent_wash_phase env d st)).pins
        WATER_PUMP_PIN = false) ∧
    (∀ (env : Env) (d : Nat) (st : AppState),
      (∀ t, env.stop t = false) → (∀ t, env.fault t = false) →
      st.water_sensor.last_stable_state = false →
      run_ok (run_rinsing_phase env d st) = some true ∧
      (run_state (run_rinsing_phase env d st)).warnings =
        st.warnings + 1 ∧
      (run_state (run_rinsing_phase env d st)).pins
        INLET_VALVE_PIN = false ∧
      (run_state (run_rinsing_phase env d st)).pins
        WATER_PUMP_PIN = false) ∧
    (∀ (env : Env) (d : Nat) (st : AppState),
      (∀ t, env.stop t = false) → (∀ t, env.fault t = false) →
      st.disinfect_sensor.last_stable_state = false →
      run_ok (run_disinfecting_phase env d st) = some true ∧
      (run_state (run_disinfecting_phase env d st)).warnings =
        st.warnings + 1 ∧
      (run_state (run_disinfecting_phase env d st)).pins
        DISINFECT_INLET_PIN = false ∧
      (run_state (run_disinfecting_phase env d st)).pins
        DISINFECT_PUMP_PIN = false) ∧
    (∀ (env : Env) (d : Nat) (st : AppState),
      (∀ t, env.stop t = false) → (∀ t, env.fault t = false) →
      st.water_sensor.last_stable_state = false →
      run_ok (run_final_rinse_phase env d st) = some true ∧
      (run_state (run_final_rinse_phase env d st)).warnings =
        st.warnings + 1 ∧
      (run_state (run_final_rinse_phase env d st)).pins
        INLET_VALVE_PIN = false ∧
      (run_state (run_final_rinse_phase env d st)).pins
        WATER_PUMP_PIN = false) := by
  refine ⟨?_, ?_, ?_, ?_⟩
  · intro env d st hs hf hw
    obtain ⟨st1, hw1, hw2, hw3, hw4⟩ := wait_for_level_timeout env
      SensorId.water true hf TIMEOUT_ITERS
      (set_pin WATER_PUMP_PIN true
        (set_pin DRAIN_VALVE_PIN false
          (set_pin INLET_VALVE_PIN true
            (set_pin (PHASE_PINS Phase.detergentWash) true st))))
      (by simp [hw])
    obtain ⟨st2, ht1, _, ht3, ht4⟩ := timer_loop_ok env hs hf (d * 60)
      (show_info (set_pin WATER_PUMP_PIN false
        (set_pin INLET_VALVE_PIN false (show_warning st1))))
    obtain ⟨st3, hd1, hd2, hd3⟩ := drain_loop_ok env hs hf DRAIN_TICKS
      (set_pin DRAIN_VALVE_PIN true st2)
    have hbody : detergent_wash_body env d
        (set_pin (PHASE_PINS Phase.detergentWash) true st) =
        Except.ok (true, st3) := by
      simp only [detergent_wash_body]
      rw [hw1]
      simp only [hs, run_timer_phase, run_drain_phase]
      rw [if_neg (by simp), if_neg (by simp), if_neg (by simp)]
      simp only [ht1, andThen_true, hd1]
    have hrun : run_detergent_wash_phase env d st =
        Except.ok (true,
          phase_cleanup (PHASE_PINS Phase.detergentWash) st3) := by
      simp only [run_detergent_wash_phase]
      rw [hbody]
      rfl
    rw [hrun]
    refine ⟨rfl, ?_, rfl, rfl⟩
    show (phase_cleanup (PHASE_PINS Phase.detergentWash) st3).warnings =
      st.warnings + 1
    simp [phase_cleanup, hd2, ht3, hw2]
  · intro env d st hs hf hw
    obtain ⟨st1, h1, h2, h3⟩ := fill_water_phase_timeout env
      (set_pin (PHASE_PINS Phase.rinsing) true st) hs hf (by simp [hw])
    obtain ⟨st2, ht1, _, ht3, ht4⟩ := timer_loop_ok env hs hf (d * 60) st1
    obtain ⟨st3, hd1, hd2, hd3⟩ := drain_loop_ok env hs hf DRAIN_TICKS
      (set_pin DRAIN_VALVE_PIN true st2)
    have hbody : rinsing_body env d
        (set_pin (PHASE_PINS Phase.rinsing) true st) =
        Except.ok (true, st3) := by
      simp only [rinsing_body]
      rw [h1]
      simp only [andThen_true, hs, run_timer_phase, run_drain_phase]
      rw [if_neg (by simp)]
      simp only [ht1, andThen_true, hd1]
    have hrun : run_rinsing_phase env d st =
        Except.ok (true, phase_cleanup (PHASE_PINS Phase.rinsing) st3) := by
      simp only [run_rinsing_phase]
      rw [hbody]
      rfl
    rw [hrun]
    refine ⟨rfl, ?_, rfl, rfl⟩
    show (phase_cleanup (PHASE_PINS Phase.rinsing) st3).warnings =
      st.warnings + 1
    simp [phase_cleanup, hd2, ht3, h2]
  · intro env d st hs hf hw
    obtain ⟨st1, hw1, hw2, hw3, hw4⟩ := wait_for_level_timeout env
      SensorId.disinfect true hf TIMEOUT_ITERS
      (set_pin DISINFECT_PUMP_PIN true
        (set_pin DISINFECT_DRAIN_PIN false
          (set_pin DRAIN_VALVE_PIN false
            (set_pin DISINFECT_INLET_PIN true
              (set_pin (PHASE_PINS Phase.disinfecting) true st)))))
      (by simp [hw])
    obtain ⟨st2, ht1, _, ht3, ht4⟩ := timer_loop_ok env hs hf (d * 60)
      (set_pin DISINFECT_PUMP_PIN false
        (set_pin DISINFECT_INLET_PIN false (show_warning st1)))
    obtain ⟨st3, hr1, hr2, hr3⟩ := return_loop_ok env hs hf RETURN_TICKS
      (set_pin DISINFECT_PUMP_PIN true
        (set_pin DISINFECT_DRAIN_PIN true
          (set_pin DRAIN_VALVE_PIN false st2)))
    have hbody : disinfecting_body env d
        (set_pin (PHASE_PINS Phase.disinfecting) true st) =
        Except.ok (true, st3) := by
      simp only [disinfecting_body]
      rw [hw1]
      simp only [hs, run_timer_phase, return_disinfectant_phase]
      rw [if_neg (by simp), if_neg (by simp), if_neg (by simp)]
      simp only [ht1, andThen_true, hr1]
    have hrun : run_disinfecting_phase env d st =
        Except.ok (true,
          phase_cleanup (PHASE_PINS Phase.disinfecting) st3) := by
      simp only [run_disinfecting_phase]
      rw [hbody]
      rfl
    rw [hrun]
    refine ⟨rfl, ?_, rfl, rfl⟩
    show (phase_cleanup (PHASE_PINS Phase.disinfecting) st3).warnings =
      st.warnings + 1
    simp [phase_cleanup, hr2, ht3, hw2]
  · intro env d st hs hf hw
    obtain ⟨st1, h1, h2, h3⟩ := fill_water_phase_timeout env
      (set_pin (PHASE_PINS Phase.finalRinse) true st) hs hf (by simp [hw])
    obtain ⟨st2, ht1, _, ht3, ht4⟩ := timer_loop_ok env hs hf (d * 60)
      (set_pin WATER_PUMP_PIN true st1)
    obtain ⟨st3, hd1, hd2, hd3⟩ := drain_loop_ok env hs hf DRAIN_TICKS
      (set_pin DRAIN_VALVE_PIN true (set_pin WATER_PUMP_PIN false st2))
    have hbody : final_rinse_body env d
        (set_pin (PHASE_PINS Phase.finalRinse) true st) =
        Except.ok (true, st3) := by
      simp only [final_rinse_body]
      rw [h1]
      simp only [andThen_true, hs, run_timer_phase, run_drain_phase]
      rw [if_neg (by simp)]
      simp only [ht1, andThen_true, hd1]
    have hrun : run_final_rinse_phase env d st =
        Except.ok (true,
          phase_cleanup (PHASE_PINS Phase.finalRinse) st3) := by
      simp only [run_final_rinse_phase]
      rw [hbody]
      rfl
    rw [hrun]
    refine ⟨rfl, ?_, rfl, rfl⟩
    show (phase_cleanup (PHASE_PINS Phase.finalRinse) st3).warnings =
      st.warnings + 1
    simp [phase_cleanup, hd2, ht3, h2]

/-- Witness for C6: in the quiet environment (no stop, no fault, raw
sensors low) from the fresh state with five minute durations, all four
fill-bearing phases succeed despite the fill timeout. -/
theorem fill_timeout_phases_still_succeed_witness :
    env_quiet.stop 0 = false ∧ env_quiet.fault 0 = false ∧
    st0.water_sensor.last_stable_state = false ∧
    run_ok (run_detergent_wash_phase env_quiet 5 st0) = some true ∧
    run_ok (run_rinsing_phase env_quiet 5 st0) = some true ∧
    run_ok (run_disinfecting_phase env_quiet 5 st0) = some true ∧
    run_ok (run_final_rinse_phase env_quiet 5 st0) = some true :=
  ⟨rfl, rfl, rfl,
    (fill_timeout_phases_still_succeed.1 env_quiet 5 st0 (fun _ => rfl)
      (fun _ => rfl) rfl).1,
    (fill_timeout_phases_still_succeed.2.1 env_quiet 5 st0 (fun _ => rfl)
      (fun _ => rfl) rfl).1,
    (fill_timeout_phases_still_succeed.2.2.1 env_quiet 5 st0 (fun _ => rfl)
      (fun _ => rfl) rfl).1,
    (fill_timeout_phases_still_succeed.2.2.2 env_quiet 5 st0 (fun _ => rfl)
      (fun _ => rfl) rfl).1⟩

-- Unconditional preservation of the shutdown counter by the loops: none
-- of them ever calls shutdown_all_valves, on any exit including faults.

lemma wait_sdc (env : Env) (sid : SensorId) (target : Bool) :
    ∀ (fuel : Nat) (st : AppState),
    (run_state (wait_for_level env sid target fuel st)).shutdown_calls =
      st.shutdown_calls := by
  intro fuel
  induction fuel with
  | zero => intro st; rfl
  | succ n ih =>
    intro st
    simp only [wait_for_level]
    split
    · rfl
    · split
      · simp [run_state]
      · rw [ih]
        simp

lemma timer_loop_sdc (env : Env) :
    ∀ (n : Nat) (st : AppState),
    (run_state (timer_loop env n st)).shutdown_calls =
      st.shutdown_calls := by
  intro n
  induction n with
  | zero => intro st; rfl
  | succ k ih =>
    intro st
    simp only [timer_loop]
    split
    · rfl
    · split
      · rfl
      · rw [ih]
        rfl

lemma drain_loop_sdc (env : Env) :
    ∀ (n : Nat) (st : AppState),
    (run_state (drain_loop env n st)).shutdown_calls =
      st.shutdown_calls := by
  intro n
  induction n with
  | zero => intro st; rfl
  | succ k ih =>
    intro st
    simp only [drain_loop]
    split
    · rfl
    · split
      · rfl
      · rw [ih]
        rfl

lemma return_loop_sdc (env : Env) :
    ∀ (n : Nat) (st : AppState),
    (run_state (return_loop env n st)).shutdown_calls =
      st.shutdown_calls := by
  intro n
  induction n with
  | zero => intro st; rfl
  | succ k ih =>
    intro st
    simp only [return_loop]
    split
    · rfl
    · split
      · rfl
      · rw [ih]
        rfl

lemma andThen_sdc (r : Except AppState (Bool × AppState))
    (k : AppState → Except AppState (Bool × AppState))
    (hk : ∀ st, (run_state (k st)).shutdown_calls = st.shutdown_calls) :
    (run_state (andThen r k)).shutdown_calls =
      (run_state r).shutdown_calls := by
  rcases r with s | ⟨b, st⟩
  · rfl
  · cases b
    · rfl
    · exact hk st

lemma fill_sdc (env : Env) (st : AppState) :
    (run_state (fill_water_phase env st)).shutdown_calls =
      st.shutdown_calls := by
  simp only [fill_water_phase]
  rcases hw : wait_for_level env SensorId.water true TIMEOUT_ITERS
      (set_pin WATER_PUMP_PIN true
        (set_pin DRAIN_VALVE_PIN false
          (set_pin INLET_VALVE_PIN true st))) with s | x
  · have h := wait_sdc env SensorId.water true TIMEOUT_ITERS
      (set_pin WATER_PUMP_PIN true
        (set_pin DRAIN_VALVE_PIN false (set_pin INLET_VALVE_PIN true st)))
    rw [hw] at h
    simpa [run_state] using h
  · obtain ⟨filled, st1⟩ := x
    have h := wait_sdc env SensorId.water true TIMEOUT_ITERS
      (set_pin WATER_PUMP_PIN true
        (set_pin DRAIN_VALVE_PIN false (set_pin INLET_VALVE_PIN true st)))
    rw [hw] at h
    simp only [run_state] at h
    simp only [hw]
    split
    · simpa [run_state] using h
    · split
      · simpa [run_state] using h
      · simpa [run_state] using h

lemma run_drain_sdc (env : Env) (st : AppState) :
    (run_state (run_drain_phase env st)).shutdown_calls =
      st.shutdown_calls := by
  simp only [run_drain_phase]
  rw [drain_loop_sdc]
  rfl

lemma run_return_sdc (env : Env) (st : AppState) :
    (run_state (return_disinfectant_phase env st)).shutdown_calls =
      st.shutdown_calls := by
  simp only [return_disinfectant_phase]
  rw [return_loop_sdc]
  rfl

-- Shutdown-counter preservation through each phase body: no wet phase
-- body ever calls shutdown_all_valves, whatever the environment does.

lemma detergent_body_sdc (env : Env) (d : Nat) (st : AppState) :
    (run_state (detergent_wash_body env d st)).shutdown_calls =
      st.shutdown_calls := by
  simp only [detergent_wash_body]
  have h := wait_sdc env SensorId.water true TIMEOUT_ITERS
    (set_pin WATER_PUMP_PIN true
      (set_pin DRAIN_VALVE_PIN false (set_pin INLET_VALVE_PIN true st)))
  rcases hw : wait_for_level env SensorId.water true TIMEOUT_ITERS
      (set_pin WATER_PUMP_PIN true
        (set_pin DRAIN_VALVE_PIN false
          (set_pin INLET_VALVE_PIN true st))) with s | x
  · rw [hw] at h
    simpa [run_state] using h
  · obtain ⟨filled, st1⟩ := x
    rw [hw] at h
    simp only [run_state] at h
    simp only [hw]
    split
    · simpa [run_state] using h
    · split
      · split
        · simpa [run_state] using h
        · rw [andThen_sdc _ _ (fun u => run_drain_sdc env u)]
          simp only [run_timer_phase]
          rw [timer_loop_sdc]
          simpa using h
      · split
        · simpa [run_state] using h
        · rw [andThen_sdc _ _ (fun u => run_drain_sdc env u)]
          simp only [run_timer_phase]
          rw [timer_loop_sdc]
          simpa using h

lemma rinsing_body_sdc (env : Env) (d : Nat) (st : AppState) :
    (run_state (rinsing_body env d st)).shutdown_calls =
      st.shutdown_calls := by
  simp only [rinsing_body]
  have hk : ∀ s : AppState,
      (run_state (if env.stop s.clock then Except.ok (false, s)
        else andThen (run_timer_phase env d s)
          (fun st => run_drain_phase env st))).shutdown_calls =
      s.shutdown_calls := by
    intro s
    split
    · rfl
    · rw [andThen_sdc _ _ (fun u => run_drain_sdc env u)]
      simp only [run_timer_phase]
      rw [timer_loop_sdc]
  rw [andThen_sdc _ _ hk, fill_sdc]

lemma disinfecting_body_sdc (env : Env) (d : Nat) (st : AppState) :
    (run_state (disinfecting_body env d st)).shutdown_calls =
      st.shutdown_calls := by
  simp only [disinfecting_body]
  have h := wait_sdc env SensorId.disinfect true TIMEOUT_ITERS
    (set_pin DISINFECT_PUMP_PIN true
      (set_pin DISINFECT_DRAIN_PIN false
        (set_pin DRAIN_VALVE_PIN false
          (set_pin DISINFECT_INLET_PIN true st))))
  rcases hw : wait_for_level env SensorId.disinfect true TIMEOUT_ITERS
      (set_pin DISINFECT_PUMP_PIN true
        (set_pin DISINFECT_DRAIN_PIN false
          (set_pin DRAIN_VALVE_PIN false
            (set_pin DISINFECT_INLET_PIN true st)))) with s | x
  · rw [hw] at h
    simpa [run_state] using h
  · obtain ⟨filled, st1⟩ := x
    rw [hw] at h
    simp only [run_state] at h
    simp only [hw]
    split
    · simpa [run_state] using h
    · split
      · split
        · simpa [run_state] using h
        · rw [andThen_sdc _ _ (fun u => run_return_sdc env u)]
          simp only [run_timer_phase]
          rw [timer_loop_sdc]
          simpa using h
      · split
        · simpa [run_state] using h
        · rw [andThen_sdc _ _ (fun u => run_return_sdc env u)]
          simp only [run_timer_phase]
          rw [timer_loop_sdc]
          simpa using h

lemma final_rinse_body_sdc (env : Env) (d : Nat) (st : AppState) :
    (run_state (final_rinse_body env d st)).shutdown_calls =
      st.shutdown_calls := by
  simp only [final_rinse_body]
  have hk : ∀ s : AppState,
      (run_state (if env.stop s.clock then Except.ok (false, s)
        else andThen (run_timer_phase env d
            (set_pin WATER_PUMP_PIN true s))
          (fun st => run_drain_phase env
            (set_pin WATER_PUMP_PIN false st)))).shutdown_calls =
      s.shutdown_calls := by
    intro s
    split
    · rfl
    · rw [andThen_sdc _ _ (fun u => by rw [run_drain_sdc]; simp)]
      simp only [run_timer_phase]
      rw [timer_loop_sdc]
      simp
  rw [andThen_sdc _ _ hk, fill_sdc]

lemma air_flush_body_sdc (env : Env) (d : Nat) (st : AppState) :
    (run_state (air_flush_body env d st)).shutdown_calls =
      st.shutdown_calls + 1 := by
  simp only [air_flush_body]
  rw [andThen_sdc _ _ (fun u => by simp [run_state])]
  simp only [run_timer_phase]
  rw [timer_loop_sdc]
  simp

/-- C7 amended: on every exit (success, failure, cancellation, or fault)
each of the four wet phases turns its own indicator pin off and runs
shutdown_all_valves exactly once, namely in its finally block; the
Air-flush phase also turns its indicator pin and air pump off on every
exit and runs shutdown_all_valves exactly once per call, but that single
call happens at phase entry — its exit cleanup performs none. -/
theorem phase_exit_cleanup_amended :
    (∀ (env : Env) (d : Nat) (st : AppState),
      (run_state (run_detergent_wash_phase env d st)).shutdown_calls =
        st.shutdown_calls + 1 ∧
      (run_state (run_detergent_wash_phase env d st)).pins
        (PHASE_PINS Phase.detergentWash) = false) ∧
    (∀ (env : Env) (d : Nat) (st : AppState),
      (run_state (run_rinsing_phase env d st)).shutdown_calls =
        st.shutdown_calls + 1 ∧
      (run_state (run_rinsing_phase env d st)).pins
        (PHASE_PINS Phase.rinsing) = false) ∧
    (∀ (env : Env) (d : Nat) (st : AppState),
      (run_state (run_disinfecting_phase env d st)).shutdown_calls =
        st.shutdown_calls + 1 ∧
      (run_state (run_disinfecting_phase env d st)).pins
        (PHASE_PINS Phase.disinfecting) = false) ∧
    (∀ (env : Env) (d : Nat) (st : AppState),
      (run_state (run_final_rinse_phase env d st)).shutdown_calls =
        st.shutdown_calls + 1 ∧
      (run_state (run_final_rinse_phase env d st)).pins
        (PHASE_PINS Phase.finalRinse) = false) ∧
    (∀ (env : Env) (d : Nat) (st : AppState),
      (run_state (run_air_flush_phase env d st)).shutdown_calls =
        st.shutdown_calls + 1 ∧
      (run_state (run_air_flush_phase env d st)).pins
        (PHASE_PINS Phase.airFlush) = false ∧
      (run_state (run_air_flush_phase env d st)).pins
        AIR_PUMP_PIN = false) ∧
    (∀ st : AppState,
      (air_flush_cleanup st).shutdown_calls = st.shutdown_calls) := by
  refine ⟨?_, ?_, ?_, ?_, ?_, fun st => rfl⟩
  · intro env d st
    constructor
    · simp only [run_detergent_wash_phase, run_state_with_cleanup,
        phase_cleanup_sdc]
      rw [detergent_body_sdc]
      simp
    · simp only [run_detergent_wash_phase, run_state_with_cleanup,
        phase_cleanup_own_pin]
  · intro env d st
    constructor
    · simp only [run_rinsing_phase, run_state_with_cleanup,
        phase_cleanup_sdc]
      rw [rinsing_body_sdc]
      simp
    · simp only [run_rinsing_phase, run_state_with_cleanup,
        phase_cleanup_own_pin]
  · intro env d st
    constructor
    · simp only [run_disinfecting_phase, run_state_with_cleanup,
        phase_cleanup_sdc]
      rw [disinfecting_body_sdc]
      simp
    · simp only [run_disinfecting_phase, run_state_with_cleanup,
        phase_cleanup_own_pin]
  · intro env d st
    constructor
    · simp only [run_final_rinse_phase, run_state_with_cleanup,
        phase_cleanup_sdc]
      rw [final_rinse_body_sdc]
      simp
    · simp only [run_final_rinse_phase, run_state_with_cleanup,
        phase_cleanup_own_pin]
  · intro env d st
    refine ⟨?_, ?_, ?_⟩
    · simp only [run_air_flush_phase, run_state_with_cleanup,
        air_flush_cleanup_sdc]
      rw [air_flush_body_sdc]
      simp
    · simp only [run_air_flush_phase, run_state_with_cleanup]
      simp [air_flush_cleanup]
    · simp only [run_air_flush_phase, run_state_with_cleanup]
      simp [air_flush_cleanup, PHASE_PINS, AIR_PUMP_PIN]

/-- C7 counterexample: the Air-flush exit path performs no
shutdown_all_valves call.  From a state whose shutdown counter is zero,
running the whole Air-flush phase leaves the counter at one (the call
made at entry), while the exit cleanup alone leaves the counter at zero,
refuting that the shutdown runs as part of the exit of every phase. -/
theorem air_flush_exit_no_shutdown_cex :
    st0.shutdown_calls = 0 ∧
    (air_flush_cleanup st0).shutdown_calls = 0 ∧
    (run_state (run_air_flush_phase env_quiet 0 st0)).shutdown_calls =
      1 := by
  refine ⟨rfl, rfl, ?_⟩
  decide

-- The cleanup block of run_all_phases leaves every valve and pump pin
-- low: shutdown_all_valves forces them low and the remaining writes
-- only touch the status LED, error LED and buzzer pins.
lemma run_all_finally_valves_off (env : Env) (success : Bool)
    (st : AppState) : all_valves_off (run_all_finally env success st) := by
  simp only [run_all_finally]
  split_ifs <;> exact ⟨rfl, rfl, rfl, rfl, rfl, rfl, rfl⟩

/-- C1: after run_all_phases returns, on every exit path (all phases
succeed, a phase returns failure, the cancellation flag stops the run,
or a fault raises inside a phase), every valve and pump pin (inlet
valve, drain valve, water pump, disinfectant inlet, disinfectant drain,
disinfectant pump, air pump) is low. -/
theorem run_all_phases_valves_off (env : Env) (sel : Phase → Bool)
    (dur : Phase → Nat) (st : AppState) :
    all_valves_off (run_all_phases env sel dur st).2 := by
  unfold run_all_phases
  rcases h : run_phases_from env sel dur PHASES
      (set_pin STATUS_LED_PIN true st) with x | x
  · obtain ⟨logs, st'⟩ := x
    simp only [h]
    exact run_all_finally_valves_off env false st'
  · obtain ⟨s, logs, st'⟩ := x
    simp only [h]
    exact run_all_finally_valves_off env _ st'

-- The phase loop appends entries in the order of the list it walks,
-- restricted to the selection: the logged names always form a prefix of
-- the filtered list, on both the normal and the raising side.
lemma run_phases_from_logs_take (env : Env) (sel : Phase → Bool)
    (dur : Phase → Nat) :
    ∀ (l : List Phase) (st : AppState), ∃ n,
    (loop_logs (run_phases_from env sel dur l st)).map PhaseLog.name =
      (l.filter sel).take n := by
  intro l
  induction l with
  | nil => exact fun st => ⟨0, rfl⟩
  | cons p rest ih =>
    intro st
    simp only [run_phases_from]
    split
    · exact ⟨0, by simp [loop_logs]⟩
    · by_cases hsel : sel p = true
      · rw [if_pos hsel]
        rcases hr : run_phase env p (dur p) st with s | x
        · exact ⟨0, by simp [loop_logs]⟩
        · obtain ⟨r, st'⟩ := x
          cases r
          · refine ⟨1, ?_⟩
            simp [loop_logs, List.filter_cons, hsel]
          · obtain ⟨n, hn⟩ := ih st'
            rcases hrec : run_phases_from env sel dur rest st' with y | y
            · obtain ⟨logs2, st2⟩ := y
              rw [hrec] at hn
              simp only [loop_logs] at hn
              refine ⟨n + 1, ?_⟩
              simp [loop_logs, List.filter_cons, hsel, hn, hrec]
            · obtain ⟨s2, logs2, st2⟩ := y
              rw [hrec] at hn
              simp only [loop_logs] at hn
              refine ⟨n + 1, ?_⟩
              simp [loop_logs, List.filter_cons, hsel, hn, hrec]
      · rw [if_neg hsel]
        obtain ⟨n, hn⟩ := ih st
        refine ⟨n, ?_⟩
        rw [hn]
        simp [List.filter_cons, hsel]

/-- C4: whatever the selection is, the phase entries of the run record
produced by run_all_phases name phases in the canonical PHASES order
restricted to the selection (a prefix of it, since a stop or failure
cuts the run short), with unselected phases skipped. -/
theorem run_record_phases_canonical_order (env : Env) (sel : Phase → Bool)
    (dur : Phase → Nat) (st : AppState) : ∃ n,
    ((run_all_phases env sel dur st).1.phases.map PhaseLog.name) =
      (PHASES.filter sel).take n := by
  obtain ⟨n, hn⟩ := run_phases_from_logs_take env sel dur PHASES
    (set_pin STATUS_LED_PIN true st)
  refine ⟨n, ?_⟩
  unfold run_all_phases
  rcases h : run_phases_from env sel dur PHASES
      (set_pin STATUS_LED_PIN true st) with x | x
  · obtain ⟨logs, st'⟩ := x
    rw [h] at hn
    simp only [loop_logs] at hn
    simp only [h]
    exact hn
  · obtain ⟨s, logs, st'⟩ := x
    rw [h] at hn
    simp only [loop_logs] at hn
    simp only [h]
    exact hn

/-- C3 counterexample: a run of only the Disinfecting phase in which the
cancellation flag is clear at the start (flag false at time 0) and
becomes set two ticks into the Treating countdown.  The phase returns
failure, so run_all_phases records overall status ERROR, not
STOPPED_BY_USER, contradicting the claim. -/
theorem run_all_phases_midphase_cancel_marks_error :
    env_stop_from2.stop 0 = false ∧
    (run_all_phases env_stop_from2 sel_disinfect_only dur5
        st_disinfect_high).1.status = RunStatus.error := by
  refine ⟨rfl, ?_⟩
  decide

/-- C3 amended: the STOPPED_BY_USER status is produced only when the
cancellation flag is observed at the top of the phase loop, before a
phase starts: in that case the run stops immediately with an empty phase
list and overall status STOPPED_BY_USER.  When the flag becomes set
while a phase is in progress, the phase returns failure and the run
record is instead marked ERROR (with no error signalling, since
stop_requested suppresses the error LED and buzzer). -/
theorem run_all_phases_stop_between_phases (env : Env)
    (sel : Phase → Bool) (dur : Phase → Nat) (st : AppState)
    (h : env.stop st.clock = true) :
    (run_all_phases env sel dur st).1 =
      ⟨[], RunStatus.stoppedByUser⟩ := by
  unfold run_all_phases
  have h0 : run_phases_from env sel dur PHASES
      (set_pin STATUS_LED_PIN true st) =
      Except.ok (RunStatus.stoppedByUser, [],
        set_pin STATUS_LED_PIN true st) := by
    simp only [PHASES, run_phases_from]
    rw [if_pos (by simpa using h)]
  simp only [h0]

/-- Witness for the amended C3 theorem: with the flag set from the start
the run stops immediately, records no phase entry, and is marked
STOPPED_BY_USER. -/
theorem run_all_phases_stop_between_phases_witness :
    env_stop_all.stop st0.clock = true ∧
    (run_all_phases env_stop_all sel_disinfect_only dur5 st0).1 =
      ⟨[], RunStatus.stoppedByUser⟩ :=
  ⟨rfl, run_all_phases_stop_between_phases env_stop_all sel_disinfect_only
    dur5 st0 rfl⟩
